import Mathlib

/-!
Verification of the graph ETL pipeline (`src/graph_etl.py`).

The pipeline loads customers, products and orders into a property graph,
derives SIMILAR_TO and CO_PURCHASED edges with declarative queries, and
computes per-customer metrics.  We embed the graph state reachable by the
pipeline shallowly: every loaded order carries exactly one PLACED edge from
its customer and one CONTAINS edge to its product, so the graph is faithfully
represented by the three node lists plus the derived-edge lists.  Monetary
amounts are rationals; a nullable property is an `Option`.  Node identity
is the `id` field; the pipeline creates uniqueness constraints on ids, and
the few lemmas that need id-uniqueness take it as an explicit hypothesis.
-/

namespace GraphETL

/-- A Customer node.  The five metric fields are absent (`none`) until
`calculate_customer_metrics` sets them. -/
structure Customer where
  id : Nat
  name : String := ""
  email : String := ""
  city : String := ""
  country : String := ""
  segment : String := ""
  registration_date : Nat := 0
  lifetime_value : ℚ := 0
  total_orders : Option Nat := none
  total_spent : Option ℚ := none
  avg_order_value : Option ℚ := none
  last_order_date : Option Nat := none
  customer_tier : Option String := none
deriving DecidableEq, Repr

/-- A Product node. -/
structure Product where
  id : Nat
  name : String := ""
  category : String := ""
  price : ℚ := 0
  cost : ℚ := 0
  margin : ℚ := 0
  launch_date : Nat := 0
deriving DecidableEq, Repr

/-- An Order node.  `load_orders` creates one `(c)-[:PLACED]->(o)` and one
`(o)-[:CONTAINS]->(p)` edge per order, so we record the two endpoint ids on
the order itself.  `total_amount` is nullable in the source data. -/
structure Order where
  id : Nat
  customer_id : Nat
  product_id : Nat
  order_date : Nat := 0
  quantity : Nat := 1
  unit_price : ℚ := 0
  total_amount : Option ℚ := none
  discount : ℚ := 0
deriving DecidableEq, Repr

/-- A derived `(c1)-[:SIMILAR_TO {strength}]->(c2)` edge. -/
structure SimEdge where
  c1 : Nat
  c2 : Nat
  strength : Nat
deriving DecidableEq, Repr

/-- A derived `(p1)-[:CO_PURCHASED {frequency}]->(p2)` edge. -/
structure CoEdge where
  p1 : Nat
  p2 : Nat
  frequency : Nat
deriving DecidableEq, Repr

/-- The graph database state visible to the pipeline: the three entity node
lists and the two derived-edge lists.  (The `BELONGS_TO` category edges and
the analytics-written node properties touch no claim and are outside the
modelled state.) -/
structure DB where
  customers : List Customer := []
  products : List Product := []
  orders : List Order := []
  similar : List SimEdge := []
  copurch : List CoEdge := []
deriving DecidableEq, Repr

/-- The empty graph. -/
def DB.empty : DB := {}

/-- `clear_database`: `MATCH (n) DETACH DELETE n` deletes every node and,
with it, every relationship. -/
def clear_database (_db : DB) : DB := {}

/-- `create_constraints` only installs uniqueness constraints; it creates or
removes no node or relationship. -/
def create_constraints (db : DB) : DB := db

/-- `load_customers`: `UNWIND $customers AS customer CREATE (c:Customer ...)`
creates one node per input record. -/
def load_customers (cs : List Customer) (db : DB) : DB :=
  { db with customers := db.customers ++ cs }

/-- `load_products`: `UNWIND $products AS product CREATE (p:Product ...)`
creates one node per input record (category edges are outside the model). -/
def load_products (ps : List Product) (db : DB) : DB :=
  { db with products := db.products ++ ps }

/-- `load_orders`:
`UNWIND $orders AS order MATCH (c:Customer {id: order.customer_id})
MATCH (p:Product {id: order.product_id}) CREATE (o:Order ...)-...`.
For each unwound row, the `CREATE` runs once per matching `(c, p)` node
pair; a row whose `MATCH` finds no customer or no product node is dropped
(Cypher `MATCH` is a filter, it raises nothing). -/
def load_orders (os : List Order) (db : DB) : DB :=
  { db with orders := db.orders ++
      os.flatMap (fun o =>
        (db.customers.filter (fun c => c.id == o.customer_id)).flatMap (fun _ =>
          (db.products.filter (fun p => p.id == o.product_id)).map (fun _ => o))) }

/-- All ordered pairs of order nodes, the row set of a two-`MATCH` join. -/
def orderPairs (orders : List Order) : List (Order × Order) :=
  orders.flatMap (fun o1 => orders.map (fun o2 => (o1, o2)))

/-- The `count(p)` aggregate of the similarity query for a customer pair:
the number of rows `(o1, o2)` with `o1` placed by `c1`, `o2` placed by `c2`,
and both containing the same product.  (No `DISTINCT`, so one row per order
pair, not per product.) -/
def simStrength (orders : List Order) (c1 c2 : Nat) : Nat :=
  ((orderPairs orders).filter (fun q =>
    q.1.customer_id == c1 && q.2.customer_id == c2 &&
      q.1.product_id == q.2.product_id)).length

/-- The `count(c)` aggregate of the co-purchase query for a product pair:
the number of rows `(o1, o2)` with `o1` containing `p1`, `o2` containing
`p2`, and both placed by the same customer.  (No `DISTINCT`.) -/
def coFrequency (orders : List Order) (p1 p2 : Nat) : Nat :=
  ((orderPairs orders).filter (fun q =>
    q.1.product_id == p1 && q.2.product_id == p2 &&
      q.1.customer_id == q.2.customer_id)).length

/-- The SIMILAR_TO edges one run of the similarity query creates: for every
customer-node pair with `c1.id < c2.id` and row count at least 2, one edge
carrying that count as `strength`. -/
def newSimEdges (db : DB) : List SimEdge :=
  ((db.customers.flatMap (fun a => db.customers.map (fun b => (a, b)))).filter
    (fun q => decide (q.1.id < q.2.id ∧ 2 ≤ simStrength db.orders q.1.id q.2.id))).map
    (fun q => { c1 := q.1.id, c2 := q.2.id,
                strength := simStrength db.orders q.1.id q.2.id })

/-- `create_customer_similarity_relationships`: the query ends in `CREATE`,
so the computed edges are appended to whatever SIMILAR_TO edges exist. -/
def create_customer_similarity_relationships (db : DB) : DB :=
  { db with similar := db.similar ++ newSimEdges db }

/-- The CO_PURCHASED edges one run of the co-purchase query creates. -/
def newCoEdges (db : DB) : List CoEdge :=
  ((db.products.flatMap (fun a => db.products.map (fun b => (a, b)))).filter
    (fun q => decide (q.1.id < q.2.id ∧ 2 ≤ coFrequency db.orders q.1.id q.2.id))).map
    (fun q => { p1 := q.1.id, p2 := q.2.id,
                frequency := coFrequency db.orders q.1.id q.2.id })

/-- `create_product_co_purchase_relationships`: likewise a `CREATE`, so the
edges are appended. -/
def create_product_co_purchase_relationships (db : DB) : DB :=
  { db with copurch := db.copurch ++ newCoEdges db }

/-- The orders placed by customer `cid`: the rows of
`MATCH (c:Customer)-[:PLACED]->(o:Order)` for a fixed `c`. -/
def customerOrders (orders : List Order) (cid : Nat) : List Order :=
  orders.filter (fun o => o.customer_id == cid)

/-- The tier `CASE` expression of the metrics query. -/
def tierOf (total_spent : ℚ) : String :=
  if 5000 < total_spent then "VIP"
  else if 2000 < total_spent then "Premium"
  else "Standard"

/-- The per-customer effect of `calculate_customer_metrics`.  The query
matches `(c)-[:PLACED]->(o)`, so a customer with no orders produces no row
group and is left untouched.  Cypher aggregates skip `null` values:
`sum` over them is their plain sum (0 when none remain), `avg` is `null`
when none remain, and `count(o)` counts every matched order. -/
def updateMetrics (orders : List Order) (c : Customer) : Customer :=
  let os := customerOrders orders c.id
  if os.isEmpty then c
  else
    let amounts := os.filterMap (fun o => o.total_amount)
    let total_spent := amounts.sum
    { c with
      total_orders := some os.length
      total_spent := some total_spent
      avg_order_value :=
        if amounts.isEmpty then none
        else some (total_spent / (amounts.length : ℚ))
      last_order_date := some ((os.map (fun o => o.order_date)).foldl max 0)
      customer_tier := some (tierOf total_spent) }

/-- `calculate_customer_metrics`: the `SET` applies the aggregate row of
each matched customer to that customer node. -/
def calculate_customer_metrics (db : DB) : DB :=
  { db with customers := db.customers.map (updateMetrics db.orders) }

/-- `run_graph_analytics` only writes pagerank/community/betweenness node
properties via the external GDS library; it creates or removes no node and
no derived edge, so on the modelled state it is the identity. -/
def run_graph_analytics (db : DB) : DB := db

/-- The step sequence of `main` after the pipeline object is built, in
source order: clear, constraints, the three loads, the two derivations,
metrics, analytics. -/
def mainSteps (cs : List Customer) (ps : List Product) (os : List Order) :
    List (DB → DB) :=
  [clear_database, create_constraints,
   load_customers cs, load_products ps, load_orders os,
   create_customer_similarity_relationships,
   create_product_co_purchase_relationships,
   calculate_customer_metrics, run_graph_analytics]

/-- The database state after the first `k` steps of a `main` run that
started from state `db`; `k < 9` models a run aborted by a failure in
step `k`. -/
def runUpTo (cs : List Customer) (ps : List Product) (os : List Order)
    (k : Nat) (db : DB) : DB :=
  ((mainSteps cs ps os).take k).foldl (fun s f => f s) db

/-- Spec-side similarity score: the number of distinct products both
customers have ordered (the spec's "count of distinct products both
customers have ordered"). -/
def spec_distinctSharedProducts (orders : List Order) (c1 c2 : Nat) : Nat :=
  (((customerOrders orders c1).map (fun o => o.product_id)).filter
    (fun p => ((customerOrders orders c2).map (fun o => o.product_id)).contains p)).dedup.length

/-- Spec-side co-purchase score: the number of distinct customers who have
ordered both products. -/
def spec_distinctSharedCustomers (orders : List Order) (p1 p2 : Nat) : Nat :=
  ((orders.filter (fun o => o.product_id == p1)).map (fun o => o.customer_id)).filter
    (fun c => ((orders.filter (fun o => o.product_id == p2)).map
      (fun o => o.customer_id)).contains c) |>.dedup.length

/-! ### Concrete graph states used by counterexamples and witnesses -/

/-- Customers 1 and 2 share exactly one distinct product (product 1), but
customer 1 ordered it twice. -/
def dbShareOne : DB :=
  { customers := [{ id := 1 }, { id := 2 }]
    products := [{ id := 1 }]
    orders := [{ id := 1, customer_id := 1, product_id := 1 },
               { id := 2, customer_id := 1, product_id := 1 },
               { id := 3, customer_id := 2, product_id := 1 }] }

/-- A single customer who ordered product 1 twice and product 2 once. -/
def dbOneBuyer : DB :=
  { customers := [{ id := 1 }]
    products := [{ id := 1 }, { id := 2 }]
    orders := [{ id := 1, customer_id := 1, product_id := 1 },
               { id := 2, customer_id := 1, product_id := 1 },
               { id := 3, customer_id := 1, product_id := 2 }] }

/-- Customers 1 and 2 each ordered both products 1 and 2, once each. -/
def dbShareTwo : DB :=
  { customers := [{ id := 1 }, { id := 2 }]
    products := [{ id := 1 }, { id := 2 }]
    orders := [{ id := 1, customer_id := 1, product_id := 1 },
               { id := 2, customer_id := 1, product_id := 2 },
               { id := 3, customer_id := 2, product_id := 1 },
               { id := 4, customer_id := 2, product_id := 2 }] }

/-- One customer with no orders at all. -/
def dbZeroOrders : DB := { customers := [{ id := 1 }] }

/-- One customer with two orders, the second of which has a null
`total_amount`. -/
def dbNullAmount : DB :=
  { customers := [{ id := 1 }]
    orders := [{ id := 1, customer_id := 1, product_id := 1, total_amount := some 100 },
               { id := 2, customer_id := 1, product_id := 1, total_amount := none }] }

/-- One customer with one 100-valued order. -/
def dbOneOrder : DB :=
  { customers := [{ id := 1 }]
    orders := [{ id := 1, customer_id := 1, product_id := 1, total_amount := some 100 }] }

/-- A store holding customer 1 and product 1 only. -/
def dbSmallStore : DB := { customers := [{ id := 1 }], products := [{ id := 1 }] }

/-- An order whose references resolve in `dbSmallStore`. -/
def orderGood : Order := { id := 1, customer_id := 1, product_id := 1 }

/-- An order referencing customer 2, who is not in `dbSmallStore`. -/
def orderDangling : Order := { id := 2, customer_id := 2, product_id := 1 }

/-- A prior database state already holding one derived SIMILAR_TO edge. -/
def dbPrior : DB := { similar := [{ c1 := 1, c2 := 2, strength := 2 }] }

/-! ### Membership in the freshly derived edge sets -/

/-- The SIMILAR_TO edges one similarity run creates are exactly the
canonical customer pairs whose row count reaches 2, each carrying that
count. -/
theorem mem_newSimEdges (db : DB) (e : SimEdge) :
    e ∈ newSimEdges db ↔ ∃ a ∈ db.customers, ∃ b ∈ db.customers,
      a.id < b.id ∧ 2 ≤ simStrength db.orders a.id b.id ∧
      e = { c1 := a.id, c2 := b.id, strength := simStrength db.orders a.id b.id } := by
  simp only [newSimEdges, List.mem_map, List.mem_filter, List.mem_flatMap,
    decide_eq_true_eq, Prod.exists, Prod.mk.injEq]
  constructor
  · rintro ⟨a, b, ⟨⟨a1, ha1, a2, ha2, rfl, rfl⟩, hlt, hs⟩, rfl⟩
    exact ⟨a1, ha1, a2, ha2, hlt, hs, rfl⟩
  · rintro ⟨a, ha, b, hb, hlt, hs, rfl⟩
    exact ⟨a, b, ⟨⟨a, ha, b, hb, rfl, rfl⟩, hlt, hs⟩, rfl⟩

/-- The CO_PURCHASED edges one co-purchase run creates are exactly the
canonical product pairs whose row count reaches 2. -/
theorem mem_newCoEdges (db : DB) (e : CoEdge) :
    e ∈ newCoEdges db ↔ ∃ a ∈ db.products, ∃ b ∈ db.products,
      a.id < b.id ∧ 2 ≤ coFrequency db.orders a.id b.id ∧
      e = { p1 := a.id, p2 := b.id, frequency := coFrequency db.orders a.id b.id } := by
  simp only [newCoEdges, List.mem_map, List.mem_filter, List.mem_flatMap,
    decide_eq_true_eq, Prod.exists, Prod.mk.injEq]
  constructor
  · rintro ⟨a, b, ⟨⟨a1, ha1, a2, ha2, rfl, rfl⟩, hlt, hs⟩, rfl⟩
    exact ⟨a1, ha1, a2, ha2, hlt, hs, rfl⟩
  · rintro ⟨a, ha, b, hb, hlt, hs, rfl⟩
    exact ⟨a, b, ⟨⟨a, ha, b, hb, rfl, rfl⟩, hlt, hs⟩, rfl⟩

/-! ### C1: customer similarity edges -/

/-- C1 counterexample: in `dbShareOne` the two customers share exactly one
distinct product, yet the similarity query still creates a SIMILAR_TO edge
for them (with strength 2), because its `count(p)` counts matched order
pairs, not distinct products. -/
theorem c1_counterexample :
    spec_distinctSharedProducts dbShareOne.orders 1 2 = 1 ∧
    { c1 := 1, c2 := 2, strength := 2 } ∈
      (create_customer_similarity_relationships dbShareOne).similar := by
  decide

/-- C1 amended: the similarity run appends, for every customer pair with
`c1.id < c2.id`, an edge exactly when the number of order pairs on a common
product (customer 1's order and customer 2's order containing the same
product, counted with multiplicity — `count(p)` without `DISTINCT`) is at
least 2, and the edge's strength equals that order-pair count rather than
the number of distinct shared products. -/
theorem c1_similarity_strength (db : DB) (e : SimEdge) :
    e ∈ (create_customer_similarity_relationships db).similar ↔
      e ∈ db.similar ∨
        ((∃ a ∈ db.customers, a.id = e.c1) ∧ (∃ b ∈ db.customers, b.id = e.c2) ∧
          e.c1 < e.c2 ∧ e.strength = simStrength db.orders e.c1 e.c2 ∧
          2 ≤ e.strength) := by
  rw [create_customer_similarity_relationships]
  simp only [List.mem_append, mem_newSimEdges]
  apply or_congr Iff.rfl
  constructor
  · rintro ⟨a, ha, b, hb, hlt, hs, rfl⟩
    exact ⟨⟨a, ha, rfl⟩, ⟨b, hb, rfl⟩, hlt, rfl, hs⟩
  · rintro ⟨⟨a, ha, ha'⟩, ⟨b, hb, hb'⟩, hlt, hstr, hs⟩
    refine ⟨a, ha, b, hb, ?_, ?_, ?_⟩
    · rw [ha', hb']; exact hlt
    · rw [ha', hb', ← hstr]; exact hs
    · cases e
      simp only at ha' hb' hstr
      rw [ha', hb', ← hstr]

/-! ### C5: product co-purchase edges -/

/-- C5 counterexample: in `dbOneBuyer` exactly one distinct customer ordered
both products, yet the co-purchase query still creates a CO_PURCHASED edge
(frequency 2), because its `count(c)` counts matched order pairs, not
distinct customers. -/
theorem c5_counterexample :
    spec_distinctSharedCustomers dbOneBuyer.orders 1 2 = 1 ∧
    { p1 := 1, p2 := 2, frequency := 2 } ∈
      (create_product_co_purchase_relationships dbOneBuyer).copurch := by
  decide

/-- C5 amended: the co-purchase run appends, for every product pair with
`p1.id < p2.id`, an edge exactly when the number of order pairs placed by a
common customer (an order containing product 1 and an order containing
product 2 by the same customer, counted with multiplicity — `count(c)`
without `DISTINCT`) is at least 2, and the edge's frequency equals that
order-pair count rather than the number of distinct shared customers. -/
theorem c5_co_purchase_frequency (db : DB) (e : CoEdge) :
    e ∈ (create_product_co_purchase_relationships db).copurch ↔
      e ∈ db.copurch ∨
        ((∃ a ∈ db.products, a.id = e.p1) ∧ (∃ b ∈ db.products, b.id = e.p2) ∧
          e.p1 < e.p2 ∧ e.frequency = coFrequency db.orders e.p1 e.p2 ∧
          2 ≤ e.frequency) := by
  rw [create_product_co_purchase_relationships]
  simp only [List.mem_append, mem_newCoEdges]
  apply or_congr Iff.rfl
  constructor
  · rintro ⟨a, ha, b, hb, hlt, hs, rfl⟩
    exact ⟨⟨a, ha, rfl⟩, ⟨b, hb, rfl⟩, hlt, rfl, hs⟩
  · rintro ⟨⟨a, ha, ha'⟩, ⟨b, hb, hb'⟩, hlt, hstr, hs⟩
    refine ⟨a, ha, b, hb, ?_, ?_, ?_⟩
    · rw [ha', hb']; exact hlt
    · rw [ha', hb', ← hstr]; exact hs
    · cases e
      simp only at ha' hb' hstr
      rw [ha', hb', ← hstr]

/-! ### Metrics: helper lemmas -/

/-- The metrics update never changes a customer's identity. -/
theorem updateMetrics_id (orders : List Order) (c : Customer) :
    (updateMetrics orders c).id = c.id := by
  rw [updateMetrics]
  split
  · rfl
  · rfl

/-- The updated customer is among the customers after metrics
computation. -/
theorem updateMetrics_mem (db : DB) (c : Customer) (hc : c ∈ db.customers) :
    updateMetrics db.orders c ∈ (calculate_customer_metrics db).customers :=
  List.mem_map_of_mem _ hc

/-- On a customer with at least one order, the metrics update sets each of
the five derived properties from the matched order rows, skipping null
`total_amount` values in the monetary aggregates. -/
theorem updateMetrics_of_orders (orders : List Order) (c : Customer)
    (h : customerOrders orders c.id ≠ []) :
    updateMetrics orders c =
      { c with
        total_orders := some (customerOrders orders c.id).length
        total_spent := some ((customerOrders orders c.id).filterMap
          (fun o => o.total_amount)).sum
        avg_order_value :=
          if ((customerOrders orders c.id).filterMap (fun o => o.total_amount)).isEmpty
          then none
          else some (((customerOrders orders c.id).filterMap
            (fun o => o.total_amount)).sum /
              (((customerOrders orders c.id).filterMap (fun o => o.total_amount)).length : ℚ))
        last_order_date :=
          some (((customerOrders orders c.id).map (fun o => o.order_date)).foldl max 0)
        customer_tier := some (tierOf ((customerOrders orders c.id).filterMap
          (fun o => o.total_amount)).sum) } := by
  rw [updateMetrics]
  rw [if_neg]
  simp only [List.isEmpty_iff]
  exact h

/-! ### C2: zero-order customers -/

/-- C2 counterexample: a customer with zero orders receives no metric
properties at all from `calculate_customer_metrics` — the tier is absent
(`none`), not `"Standard"`, and `total_orders` is absent, not 0. -/
theorem c2_counterexample :
    (calculate_customer_metrics dbZeroOrders).customers.map
      (fun c => (c.customer_tier, c.total_orders, c.total_spent,
        c.avg_order_value, c.last_order_date))
      = [(none, none, none, none, none)] := by
  decide

/-- C2 amended: the metrics query matches only customers with at least one
`PLACED` order, so a customer with zero orders is left completely
untouched: none of `total_orders`, `total_spent`, `avg_order_value`,
`last_order_date`, `customer_tier` is set — there is no explicit
`"Standard"` rule for the zero-order case. -/
theorem c2_zero_orders_untouched (db : DB) (c : Customer)
    (hc : c ∈ db.customers) (h : customerOrders db.orders c.id = []) :
    updateMetrics db.orders c = c ∧
    c ∈ (calculate_customer_metrics db).customers := by
  have h1 : updateMetrics db.orders c = c := by
    rw [updateMetrics, h]
    rfl
  refine ⟨h1, ?_⟩
  have h2 := List.mem_map_of_mem (updateMetrics db.orders) hc
  rw [h1] at h2
  exact h2

/-- C2 witness: the zero-order customer of `dbZeroOrders` is carried
through the metrics computation unchanged. -/
theorem c2_witness :
    updateMetrics dbZeroOrders.orders { id := 1 } = { id := 1 } ∧
    ({ id := 1 } : Customer) ∈ (calculate_customer_metrics dbZeroOrders).customers :=
  c2_zero_orders_untouched dbZeroOrders { id := 1 } (by decide) (by decide)

/-! ### C4: customer tier thresholds -/

/-- C4: for every customer with at least one order, the metrics computation
stores a `total_spent` value and sets `customer_tier` purely from it with
the strict thresholds of the `CASE` expression: above 5000 is `"VIP"`,
above 2000 (and at most 5000) is `"Premium"`, otherwise `"Standard"`; in
particular a spend of exactly 5000 yields `"Premium"` and 5000.01 yields
`"VIP"`. -/
theorem c4_tier_thresholds (db : DB) (c : Customer) (hc : c ∈ db.customers)
    (h : customerOrders db.orders c.id ≠ []) :
    ∃ c' ∈ (calculate_customer_metrics db).customers, c'.id = c.id ∧
      ∃ s : ℚ, c'.total_spent = some s ∧
        c'.customer_tier =
          some (if 5000 < s then "VIP" else if 2000 < s then "Premium" else "Standard") ∧
        (s = 5000 → c'.customer_tier = some "Premium") ∧
        (s = 500001 / 100 → c'.customer_tier = some "VIP") := by
  refine ⟨updateMetrics db.orders c, updateMetrics_mem db c hc,
    updateMetrics_id db.orders c, ?_⟩
  rw [updateMetrics_of_orders db.orders c h]
  refine ⟨((customerOrders db.orders c.id).filterMap (fun o => o.total_amount)).sum,
    rfl, ?_, ?_, ?_⟩
  · simp only [tierOf]
  · intro hs
    rw [hs]
    norm_num [tierOf]
  · intro hs
    rw [hs]
    norm_num [tierOf]

/-- C4 witness: the tier rule evaluated for the one customer of
`dbOneOrder`. -/
theorem c4_witness :
    ∃ c' ∈ (calculate_customer_metrics dbOneOrder).customers,
      c'.id = ({ id := 1 } : Customer).id ∧
      ∃ s : ℚ, c'.total_spent = some s ∧
        c'.customer_tier =
          some (if 5000 < s then "VIP" else if 2000 < s then "Premium" else "Standard") ∧
        (s = 5000 → c'.customer_tier = some "Premium") ∧
        (s = 500001 / 100 → c'.customer_tier = some "VIP") :=
  c4_tier_thresholds dbOneOrder { id := 1 } (by decide) (by decide)

/-! ### C7: null total_amount during aggregation -/

/-- C7 counterexample: a customer whose second order has a null
`total_amount` still gets metrics computed with no error: the null amount
is silently skipped, so `total_spent` is 100, `avg_order_value` divides by
the one non-null amount (100, not 50), and the order still counts toward
`total_orders`. -/
theorem c7_counterexample :
    (calculate_customer_metrics dbNullAmount).customers.map
      (fun c => (c.total_orders, c.total_spent, c.avg_order_value, c.customer_tier))
      = [(some 2, some 100, some 100, some "Standard")] := by
  norm_num [calculate_customer_metrics, updateMetrics, customerOrders, tierOf,
    dbNullAmount, List.filter, List.filterMap]

/-- C7 amended: a null `total_amount` is not an error: the aggregation
always succeeds, `sum` and the tier are computed over the non-null amounts
only (the nulls are skipped, not coerced to zero and not propagated as a
failure), every order — null amount or not — still counts toward
`total_orders`, and `avg_order_value` divides by the number of non-null
amounts. -/
theorem c7_null_amount_skipped (db : DB) (c : Customer) (hc : c ∈ db.customers)
    (h : customerOrders db.orders c.id ≠ []) :
    ∃ c' ∈ (calculate_customer_metrics db).customers, c'.id = c.id ∧
      c'.total_orders = some (customerOrders db.orders c.id).length ∧
      c'.total_spent =
        some ((customerOrders db.orders c.id).filterMap (fun o => o.total_amount)).sum ∧
      c'.avg_order_value =
        (if ((customerOrders db.orders c.id).filterMap (fun o => o.total_amount)).isEmpty
         then none
         else some (((customerOrders db.orders c.id).filterMap
           (fun o => o.total_amount)).sum /
             (((customerOrders db.orders c.id).filterMap (fun o => o.total_amount)).length : ℚ))) ∧
      c'.customer_tier = some (tierOf ((customerOrders db.orders c.id).filterMap
        (fun o => o.total_amount)).sum) := by
  refine ⟨updateMetrics db.orders c, updateMetrics_mem db c hc,
    updateMetrics_id db.orders c, ?_⟩
  rw [updateMetrics_of_orders db.orders c h]
  exact ⟨rfl, rfl, rfl, rfl⟩

/-- C7 witness: the null-skipping aggregation evaluated on
`dbNullAmount`. -/
theorem c7_witness :
    ∃ c' ∈ (calculate_customer_metrics dbNullAmount).customers,
      c'.id = ({ id := 1 } : Customer).id ∧
      c'.total_orders = some (customerOrders dbNullAmount.orders 1).length ∧
      c'.total_spent =
        some ((customerOrders dbNullAmount.orders 1).filterMap (fun o => o.total_amount)).sum ∧
      c'.avg_order_value =
        (if ((customerOrders dbNullAmount.orders 1).filterMap (fun o => o.total_amount)).isEmpty
         then none
         else some (((customerOrders dbNullAmount.orders 1).filterMap
           (fun o => o.total_amount)).sum /
             (((customerOrders dbNullAmount.orders 1).filterMap (fun o => o.total_amount)).length : ℚ))) ∧
      c'.customer_tier = some (tierOf ((customerOrders dbNullAmount.orders 1).filterMap
        (fun o => o.total_amount)).sum) :=
  c7_null_amount_skipped dbNullAmount { id := 1 } (by decide) (by decide)

/-! ### C3: idempotence of the derivation -/

/-- C3 counterexample: running the similarity derivation twice on the
unchanged `dbShareTwo` store duplicates the derived edge instead of
producing the identical edge set. -/
theorem c3_counterexample :
    (create_customer_similarity_relationships
      (create_customer_similarity_relationships dbShareTwo)).similar
      ≠ (create_customer_similarity_relationships dbShareTwo).similar ∧
    (create_customer_similarity_relationships dbShareTwo).similar
      = [{ c1 := 1, c2 := 2, strength := 2 }] ∧
    (create_customer_similarity_relationships
      (create_customer_similarity_relationships dbShareTwo)).similar
      = [{ c1 := 1, c2 := 2, strength := 2 }, { c1 := 1, c2 := 2, strength := 2 }] := by
  decide

/-- C3 amended: both derivation queries end in `CREATE`, not `MERGE`: each
run appends a freshly computed copy of the derived edge set to whatever is
already stored, so running a derivation twice on an unchanged store leaves
two copies of every derived edge (the computed pairs and scores are the
same both times, but they accumulate instead of replacing). -/
theorem c3_derivation_not_idempotent (db : DB) :
    (create_customer_similarity_relationships db).similar
      = db.similar ++ newSimEdges db ∧
    (create_customer_similarity_relationships
      (create_customer_similarity_relationships db)).similar
      = (db.similar ++ newSimEdges db) ++ newSimEdges db ∧
    (create_product_co_purchase_relationships db).copurch
      = db.copurch ++ newCoEdges db ∧
    (create_product_co_purchase_relationships
      (create_product_co_purchase_relationships db)).copurch
      = (db.copurch ++ newCoEdges db) ++ newCoEdges db :=
  ⟨rfl, rfl, rfl, rfl⟩

/-! ### C6: canonical pair ordering -/

/-- C6: in the edge sets created by one derivation run on a store holding
no prior derived edges, every SIMILAR_TO edge has `c1 < c2`, every
CO_PURCHASED edge has `p1 < p2` (so there are no self-pairs), and no
unordered pair appears in both orientations. -/
theorem c6_canonical_pairs (db : DB) (h1 : db.similar = []) (h2 : db.copurch = []) :
    (∀ e ∈ (create_customer_similarity_relationships db).similar, e.c1 < e.c2) ∧
    (∀ e ∈ (create_customer_similarity_relationships db).similar,
      ∀ f ∈ (create_customer_similarity_relationships db).similar,
        ¬(f.c1 = e.c2 ∧ f.c2 = e.c1)) ∧
    (∀ e ∈ (create_product_co_purchase_relationships db).copurch, e.p1 < e.p2) ∧
    (∀ e ∈ (create_product_co_purchase_relationships db).copurch,
      ∀ f ∈ (create_product_co_purchase_relationships db).copurch,
        ¬(f.p1 = e.p2 ∧ f.p2 = e.p1)) := by
  have hs : ∀ e ∈ (create_customer_similarity_relationships db).similar, e.c1 < e.c2 := by
    intro e he
    simp only [create_customer_similarity_relationships, h1, List.nil_append,
      mem_newSimEdges] at he
    obtain ⟨a, -, b, -, hlt, -, rfl⟩ := he
    exact hlt
  have hc : ∀ e ∈ (create_product_co_purchase_relationships db).copurch, e.p1 < e.p2 := by
    intro e he
    simp only [create_product_co_purchase_relationships, h2, List.nil_append,
      mem_newCoEdges] at he
    obtain ⟨a, -, b, -, hlt, -, rfl⟩ := he
    exact hlt
  refine ⟨hs, ?_, hc, ?_⟩
  · rintro e he f hf ⟨h3, h4⟩
    have he' := hs e he
    have hf' := hs f hf
    omega
  · rintro e he f hf ⟨h3, h4⟩
    have he' := hc e he
    have hf' := hc f hf
    omega

/-- C6 witness: the canonical-ordering invariants evaluated on the
derivation run over `dbShareTwo`. -/
theorem c6_witness :
    (∀ e ∈ (create_customer_similarity_relationships dbShareTwo).similar, e.c1 < e.c2) ∧
    (∀ e ∈ (create_customer_similarity_relationships dbShareTwo).similar,
      ∀ f ∈ (create_customer_similarity_relationships dbShareTwo).similar,
        ¬(f.c1 = e.c2 ∧ f.c2 = e.c1)) ∧
    (∀ e ∈ (create_product_co_purchase_relationships dbShareTwo).copurch, e.p1 < e.p2) ∧
    (∀ e ∈ (create_product_co_purchase_relationships dbShareTwo).copurch,
      ∀ f ∈ (create_product_co_purchase_relationships dbShareTwo).copurch,
        ¬(f.p1 = e.p2 ∧ f.p2 = e.p1)) :=
  c6_canonical_pairs dbShareTwo rfl rfl

/-! ### C8: dangling order references -/

/-- With ids unique, a filter on one id returns nothing or the single
matching record. -/
theorem filter_beq_of_nodup {α : Type} (f : α → Nat) (l : List α)
    (h : (l.map f).Nodup) (x : Nat) :
    l.filter (fun a => f a == x) = [] ∨
      ∃ a ∈ l, f a = x ∧ l.filter (fun a => f a == x) = [a] := by
  induction l with
  | nil => exact Or.inl rfl
  | cons a t ih =>
    rw [List.map_cons, List.nodup_cons] at h
    obtain ⟨ha, ht⟩ := h
    rw [List.filter_cons]
    by_cases hx : f a = x
    · rw [if_pos (by simpa using hx)]
      refine Or.inr ⟨a, List.mem_cons_self a t, hx, ?_⟩
      have hnil : t.filter (fun b => f b == x) = [] := by
        rw [List.filter_eq_nil_iff]
        intro b hb
        simp only [beq_iff_eq]
        intro hbx
        have : f a ∈ t.map f := by
          rw [hx, ← hbx]
          exact List.mem_map_of_mem f hb
        exact ha this
      rw [hnil]
    · rw [if_neg (by simpa using hx)]
      rcases ih ht with h1 | ⟨b, hb, hbx, h2⟩
      · exact Or.inl h1
      · exact Or.inr ⟨b, List.mem_cons_of_mem a hb, hbx, h2⟩

/-- With unique ids, the `MATCH`-`MATCH`-`CREATE` body of `load_orders`
creates one order node when both references resolve, and silently creates
nothing when either reference dangles. -/
theorem load_one_order (db : DB) (o : Order)
    (h1 : (db.customers.map (fun c => c.id)).Nodup)
    (h2 : (db.products.map (fun p => p.id)).Nodup) :
    (db.customers.filter (fun c => c.id == o.customer_id)).flatMap (fun _ =>
      (db.products.filter (fun p => p.id == o.product_id)).map (fun _ => o)) =
      (if (db.customers.any (fun c => c.id == o.customer_id)) &&
          (db.products.any (fun p => p.id == o.product_id)) then [o] else []) := by
  rcases filter_beq_of_nodup (fun c => c.id) db.customers h1 o.customer_id with
    hcf | ⟨a, ha, hax, hcf⟩
  · have hca : db.customers.any (fun c => c.id == o.customer_id) = false := by
      rw [List.any_eq_false]
      intro x hx hbeq
      have hmem : x ∈ db.customers.filter (fun c => c.id == o.customer_id) :=
        List.mem_filter.mpr ⟨hx, hbeq⟩
      rw [hcf] at hmem
      exact absurd hmem (List.not_mem_nil x)
    rw [hcf, hca]
    rfl
  · rcases filter_beq_of_nodup (fun p => p.id) db.products h2 o.product_id with
      hpf | ⟨b, hb, hbx, hpf⟩
    · have hpa : db.products.any (fun p => p.id == o.product_id) = false := by
        rw [List.any_eq_false]
        intro x hx hbeq
        have hmem : x ∈ db.products.filter (fun p => p.id == o.product_id) :=
          List.mem_filter.mpr ⟨hx, hbeq⟩
        rw [hpf] at hmem
        exact absurd hmem (List.not_mem_nil x)
      rw [hcf, hpf, hpa, Bool.and_false]
      rfl
    · have hca : db.customers.any (fun c => c.id == o.customer_id) = true := by
        rw [List.any_eq_true]
        exact ⟨a, ha, by simpa using hax⟩
      have hpa : db.products.any (fun p => p.id == o.product_id) = true := by
        rw [List.any_eq_true]
        exact ⟨b, hb, by simpa using hbx⟩
      rw [hcf, hpf, hca, hpa]
      rfl

/-- C8 counterexample: loading a batch containing an order that references
the missing customer 2 does not fail: the dangling order is silently
dropped while the other order of the batch is loaded (a partial result). -/
theorem c8_counterexample :
    (load_orders [orderGood, orderDangling] dbSmallStore).orders = [orderGood] := by
  decide

/-- C8 amended: `load_orders` raises no error on a dangling reference:
assuming unique ids (the pipeline's uniqueness constraints), it loads
exactly those orders of the batch whose customer id and product id both
resolve, and silently drops every order with a dangling reference — the
rest of the batch is still loaded. -/
theorem c8_dangling_orders_dropped (db : DB) (os : List Order)
    (h1 : (db.customers.map (fun c => c.id)).Nodup)
    (h2 : (db.products.map (fun p => p.id)).Nodup) :
    (load_orders os db).orders = db.orders ++ os.filter (fun o =>
      (db.customers.any (fun c => c.id == o.customer_id)) &&
      (db.products.any (fun p => p.id == o.product_id))) := by
  simp only [load_orders]
  congr 1
  induction os with
  | nil => rfl
  | cons o t ih =>
    rw [List.flatMap_cons, List.filter_cons, load_one_order db o h1 h2, ih]
    by_cases hq : ((db.customers.any (fun c => c.id == o.customer_id)) &&
        (db.products.any (fun p => p.id == o.product_id))) = true
    · rw [if_pos hq, if_pos hq]
      rfl
    · rw [if_neg hq, if_neg hq]
      rfl

/-- C8 witness: the dangling-drop behaviour evaluated on the concrete
two-order batch against `dbSmallStore`. -/
theorem c8_witness :
    (load_orders [orderGood, orderDangling] dbSmallStore).orders =
      dbSmallStore.orders ++ [orderGood, orderDangling].filter (fun o =>
        (dbSmallStore.customers.any (fun c => c.id == o.customer_id)) &&
        (dbSmallStore.products.any (fun p => p.id == o.product_id))) :=
  c8_dangling_orders_dropped dbSmallStore [orderGood, orderDangling]
    (by decide) (by decide)

/-! ### C9: atomicity of a pipeline run -/

/-- C9 counterexample: a run over `dbPrior` that fails right after its
first step (of nine) has already emptied the stored SIMILAR_TO edges, so a
failed run does not leave the previously stored derived state
observable. -/
theorem c9_counterexample :
    dbPrior.similar = [{ c1 := 1, c2 := 2, strength := 2 }] ∧
    1 < (mainSteps [] [] []).length ∧
    (runUpTo [] [] [] 1 dbPrior).similar = [] := by
  refine ⟨rfl, ?_, rfl⟩
  decide

/-- C9 amended: `main` is not atomic with respect to prior derived state:
its very first step clears the whole database, so every run — completed or
aborted at any later step — produces a state independent of the prior one,
and a run that fails after the first step has already destroyed the prior
derived edges (the state after one step holds no derived edge at all). -/
theorem c9_prior_state_destroyed (cs : List Customer) (ps : List Product)
    (os : List Order) (prior prior' : DB) (k : Nat) (hk : 1 ≤ k) :
    runUpTo cs ps os k prior = runUpTo cs ps os k prior' ∧
    (runUpTo cs ps os 1 prior).similar = [] ∧
    (runUpTo cs ps os 1 prior).copurch = [] := by
  obtain ⟨k, rfl⟩ : ∃ m, k = m + 1 := ⟨k - 1, by omega⟩
  exact ⟨rfl, rfl, rfl⟩

/-- C9 witness: prior-state destruction evaluated for a one-step run over
`dbPrior`. -/
theorem c9_witness :
    runUpTo [] [] [] 1 dbPrior = runUpTo [] [] [] 1 DB.empty ∧
    (runUpTo [] [] [] 1 dbPrior).similar = [] ∧
    (runUpTo [] [] [] 1 dbPrior).copurch = [] :=
  c9_prior_state_destroyed [] [] [] dbPrior DB.empty 1 (by decide)

/-! ### C10: clear_database runs first -/

/-- C10: `clear_database` empties the whole graph (every node and every
relationship), it is the first step of `main`, and therefore the state
after any number of executed steps of a run is independent of the state
the run started from — the prior contents are destroyed even if the run
fails later. -/
theorem c10_clear_database_first (db : DB) (cs : List Customer)
    (ps : List Product) (os : List Order) (k : Nat) (hk : 1 ≤ k) :
    clear_database db = DB.empty ∧
    (mainSteps cs ps os).head? = some clear_database ∧
    runUpTo cs ps os k db = runUpTo cs ps os k DB.empty := by
  obtain ⟨k, rfl⟩ : ∃ m, k = m + 1 := ⟨k - 1, by omega⟩
  exact ⟨rfl, rfl, rfl⟩

/-- C10 witness: the clear-first behaviour evaluated for a two-step run
over the populated store `dbShareOne`. -/
theorem c10_witness :
    clear_database dbShareOne = DB.empty ∧
    (mainSteps [] [] []).head? = some clear_database ∧
    runUpTo [] [] [] 2 dbShareOne = runUpTo [] [] [] 2 DB.empty :=
  c10_clear_database_first dbShareOne [] [] [] 2 (by decide)

end GraphETL
